import Mathlib

/-!
Shallow embedding of `src/gpipe.py` (gevent-cooperative pipe messaging).

Conventions of the embedding:
* a byte is a `Nat` (values below 256 where the code produces them), a byte
  string is a `List Nat`;
* the readable side of a pipe is modelled by the list of all bytes that the
  peer will ever have written before closing its end: `gevent.os.nb_read`
  suspends cooperatively until data is available, so from the caller's point
  of view a read returns at least one byte whenever more data is still to
  come, and returns zero bytes exactly when the stream is exhausted (EOF);
* the OS's freedom to deliver a read or accept a write only partially is
  modelled by an explicit schedule (`sched : List Nat`), one entry per loop
  iteration, bounding the chunk handled by that iteration; theorems quantify
  over all schedules;
* `pickle.dumps`/`pickle.loads` are the external serialization collaborator:
  the transport is modelled at the level of the opaque payload byte string
  (`bindata` in the source);
* the POSIX variant is modelled (`WINDOWS = False`): the
  `_pre/_post_createprocess_windows` hooks are no-ops.
-/

namespace GPipe

/-- Bytes produced by `struct.pack("!i", n)` for `0 ≤ n < 2 ^ 31`:
four bytes, big-endian (network byte order). -/
def packBytes (n : Nat) : List Nat :=
  [n / 2 ^ 24 % 256, n / 2 ^ 16 % 256, n / 2 ^ 8 % 256, n % 256]

/-- Model of `struct.pack("!i", n)` applied to a nonnegative length `n`
(`len(bindata)` in `_GPipeWriter.put`).  The format character `i` is a
SIGNED 32-bit integer, so `struct.error` is raised (modelled by `none`)
whenever `n` exceeds `2 ^ 31 - 1`. -/
def pack_i (n : Nat) : Option (List Nat) :=
  if n < 2 ^ 31 then some (packBytes n) else none

/-- Model of `struct.unpack("!i", b)` on a four-byte buffer `b` (in
`_GPipeReader.get` the buffer always has exactly 4 bytes, the result of
`_recv_in_buffer(4)`).  The unsigned big-endian value `u` is reinterpreted
as a signed 32-bit integer: values with the high bit set come out
negative. -/
def unpack_i (b : List Nat) : Int :=
  let u : Nat := b.getD 0 0 * 2 ^ 24 + b.getD 1 0 * 2 ^ 16 + b.getD 2 0 * 2 ^ 8 + b.getD 3 0
  if u < 2 ^ 31 then (u : Int) else (u : Int) - 2 ^ 32

/-- Errors raised by `_GPipeReader._recv_in_buffer`: `EOFError` when a read
returns zero bytes while nothing has been collected for this call, and
`IOError("Message interrupted by EOF.")` (the spec's `TruncatedMessageError`)
when a read returns zero bytes after a proper part of the message. -/
inductive RecvErr where
  | eofError
  | truncatedMessage
deriving DecidableEq

/-- The `while remaining > 0` loop of `_GPipeReader._recv_in_buffer`.
`s` is the readable stream, `size` the originally requested count,
`remaining` the count still missing, `acc` the bytes collected so far
(the `readbuf` of the source).  One iteration models
`chunk = _READ_NB(self._fd, remaining)`: the chunk delivered is the first
`min (min (sched.headD 0 + 1) remaining) s.length` bytes of `s` — at most
`remaining` bytes, at least one byte when the stream still has data, and
zero bytes exactly at EOF.  On a zero-byte chunk the source raises
`EOFError` when `remaining == size` and `IOError` otherwise. -/
def recv_loop (sched : List Nat) (s : List Nat) (size remaining : Nat)
    (acc : List Nat) : Except RecvErr (List Nat × List Nat) :=
  if remaining = 0 then .ok (acc, s)
  else
    if min (min (sched.headD 0 + 1) remaining) s.length = 0 then
      if remaining = size then .error .eofError
      else .error .truncatedMessage
    else
      recv_loop sched.tail
        (s.drop (min (min (sched.headD 0 + 1) remaining) s.length)) size
        (remaining - min (min (sched.headD 0 + 1) remaining) s.length)
        (acc ++ s.take (min (min (sched.headD 0 + 1) remaining) s.length))
termination_by remaining
decreasing_by omega

/-- `_GPipeReader._recv_in_buffer(size)`: read exactly `size` bytes
cooperatively from the stream; returns the collected bytes together with
the rest of the stream. -/
def _recv_in_buffer (sched s : List Nat) (size : Nat) :
    Except RecvErr (List Nat × List Nat) :=
  recv_loop sched s size size []

/-- The `while True` loop of `_GPipeWriter._write(bindata)`.  One iteration
models `_WRITE_NB(self._fd, bindata)` writing the first
`min (sched.headD 0 + 1) bindata.length` bytes (a partial write of at least
one byte unless `bindata` is empty); `diff = len(bindata) - written`; on
`diff == 0` the loop breaks, otherwise it continues with
`bindata[-diff:]`, i.e. `bindata.drop written`.  The result is the
concatenation of all chunks that reached the pipe. -/
def write_loop (sched bindata : List Nat) : List Nat :=
  if bindata.length - min (sched.headD 0 + 1) bindata.length = 0 then
    bindata.take (min (sched.headD 0 + 1) bindata.length)
  else
    bindata.take (min (sched.headD 0 + 1) bindata.length) ++
      write_loop sched.tail
        (bindata.drop (min (sched.headD 0 + 1) bindata.length))
termination_by bindata.length
decreasing_by
  simp only [List.length_drop]
  omega

/-- `_GPipeWriter.put` at the framing level: `bindata` is the serialized
payload (`pickle.dumps(o)` is the external collaborator); the frame pushed
onto the pipe is `self._write(struct.pack("!i", len(bindata)))` followed by
`self._write(bindata)`.  `none` models `struct.error` from the pack call. -/
def put (ws1 ws2 payload : List Nat) : Option (List Nat) :=
  match pack_i payload.length with
  | none => none
  | some hdr => some (write_loop ws1 hdr ++ write_loop ws2 payload)

/-- `_GPipeReader.get` at the framing level:
`msize, = struct.unpack("!i", self._recv_in_buffer(4).getvalue())` then
`bindata = self._recv_in_buffer(msize).getvalue()`.  A negative `msize`
makes the Python loop body unreachable (`while remaining > 0`), exactly as
`Int.toNat` maps negatives to `0`.  Returns the payload bytes and the rest
of the stream (`pickle.loads` is the external collaborator). -/
def get (rs1 rs2 s : List Nat) : Except RecvErr (List Nat × List Nat) :=
  match _recv_in_buffer rs1 s 4 with
  | .error e => .error e
  | .ok (hdr, s1) =>
    match _recv_in_buffer rs2 s1 (unpack_i hdr).toNat with
    | .error e => .error e
    | .ok (payload, s2) => .ok (payload, s2)

/-- One `put` followed by one `get` on the bytes the `put` pushed onto the
pipe (the paired reader sees exactly the writer's byte sequence). -/
def roundtrip (ws1 ws2 rs1 rs2 payload : List Nat) : Option (List Nat) :=
  match put ws1 ws2 payload with
  | none => none
  | some wire =>
    match get rs1 rs2 wire with
    | .ok (p, _) => some p
    | .error _ => none

/-- Three consecutive `put` calls on the same writer: the pipe carries the
concatenation of the three frames in call order.  `none` models a raised
`struct.error` aborting the sequence. -/
def put3 (sa1 sa2 sb1 sb2 sc1 sc2 a b c : List Nat) : Option (List Nat) :=
  match put sa1 sa2 a with
  | none => none
  | some wa =>
    match put sb1 sb2 b with
    | none => none
    | some wb =>
      match put sc1 sc2 c with
      | none => none
      | some wc => some (wa ++ wb ++ wc)

/-- Three consecutive `get` calls on the same reader, threading the unread
rest of the stream from call to call. -/
def get3 (r1 r2 r3 r4 r5 r6 s : List Nat) :
    Except RecvErr (List Nat × List Nat × List Nat × List Nat) :=
  match get r1 r2 s with
  | .error e => .error e
  | .ok (a, s1) =>
    match get r3 r4 s1 with
    | .error e => .error e
    | .ok (b, s2) =>
      match get r5 r6 s2 with
      | .error e => .error e
      | .ok (c, s3) => .ok (a, b, c, s3)

/-- Errors raised by `_GPipeHandle` operations, all `GPipeError` in the
source, distinguished by their message: "GPipeHandle has been closed
before." / "GPipeHandle not registered for current process." / "Can't
close: handle locked for I/O operation.". -/
inductive GErr where
  | handleClosed
  | wrongProcess
  | handleLocked
deriving DecidableEq

/-- Observable state of one `_GPipeHandle` within a process: `fd` is
`self._fd` (`none` once closed), `legit_pid` is `self._legit_pid`, `lock`
is whether `self._lock` is currently held, `closed` is `self._closed`,
`registered` is whether `self` is a member of `_all_handles`. -/
structure HState where
  fd : Option Nat
  legit_pid : Nat
  lock : Bool
  closed : Bool
  registered : Bool
deriving DecidableEq

/-- `_GPipeHandle._validate_process` run with current pid `pid`: first
`if self._closed: raise`, then `if os.getpid() != self._legit_pid: raise`.
Returns the error it would raise, if any. -/
def validateErr (pid : Nat) (h : HState) : Option GErr :=
  if h.closed then some .handleClosed
  else if pid ≠ h.legit_pid then some .wrongProcess
  else none

/-- `_GPipeHandle.close` run with current pid `pid`: `_validate_process()`;
`self._lock.acquire(blocking=False)` failing raises the locked error;
otherwise `self._closed = True`; `if self._fd is not None: os.close; _fd =
None`; `if self in _all_handles: remove`; `self._lock.release()`.  Returns
the raised error (if any) together with the handle state afterwards. -/
def close (pid : Nat) (h : HState) : Option GErr × HState :=
  match validateErr pid h with
  | some e => (some e, h)
  | none =>
    if h.lock then (some .handleLocked, h)
    else
      (none,
        { h with
          lock := false,
          closed := true,
          fd := if (h.fd).isSome then none else h.fd,
          registered := if h.registered then false else h.registered })

/-- What the entry sequence of `get`/`put` does before any I/O, observed
from outside: it raised an error, it is blocked waiting for `self._lock`
(held by another task), or it entered the critical section. -/
inductive EntryOutcome where
  | raised (e : GErr)
  | blockedOnLock
  | entered
deriving DecidableEq

/-- Entry sequence of `_GPipeReader.get`: `self._validate_process()` comes
FIRST, then `with self._lock:` (which blocks while the lock is held). -/
def get_entry (pid : Nat) (h : HState) : EntryOutcome :=
  match validateErr pid h with
  | some e => .raised e
  | none => if h.lock then .blockedOnLock else .entered

/-- Entry sequence of `_GPipeWriter.put`: identical to `get` —
`self._validate_process()` first, then `with self._lock:`. -/
def put_entry (pid : Nat) (h : HState) : EntryOutcome :=
  match validateErr pid h with
  | some e => .raised e
  | none => if h.lock then .blockedOnLock else .entered

/-- Modelled from the spec: the entry order of §4.3, "acquire `ioLock`;
assert ownership" — lock acquisition FIRST, validation only inside the
critical section.  Stated only to be compared with `get_entry`, the order
the source actually implements. -/
def get_entry_specOrder (pid : Nat) (h : HState) : EntryOutcome :=
  if h.lock then .blockedOnLock
  else
    match validateErr pid h with
    | some e => .raised e
    | none => .entered

/-- The handle state a successful `close` leaves behind. -/
def closedVersion (h : HState) : HState :=
  { h with lock := false, closed := true, fd := none, registered := false }

/-- Parent side of `start_process` after `p.start()` (POSIX, so the
Windows pre/post hooks are no-ops): `for h in childhandles: h.close()`.
Handles are named by ids, `f` maps each id to its state; a raised error
aborts the loop (and propagates out of `start_process`). -/
def start_process_parent (pid : Nat) (childhandles : List Nat)
    (f : Nat → HState) : Option GErr × (Nat → HState) :=
  match childhandles with
  | [] => (none, f)
  | i :: rest =>
    match close pid (f i) with
    | (some e, hi) => (some e, fun j => if j = i then hi else f j)
    | (none, hi) =>
      start_process_parent pid rest (fun j => if j = i then hi else f j)

theorem write_loop_eq_aux (n : Nat) :
    ∀ bindata : List Nat, bindata.length ≤ n →
      ∀ sched, write_loop sched bindata = bindata := by
  induction n with
  | zero =>
    intro b hb sched
    have hb0 : b = [] := List.length_eq_zero.mp (Nat.le_zero.mp hb)
    subst hb0
    rw [write_loop]
    simp
  | succ n ih =>
    intro b hb sched
    rw [write_loop]
    by_cases hd : b.length - min (sched.headD 0 + 1) b.length = 0
    · rw [if_pos hd]
      exact List.take_of_length_le (by omega)
    · rw [if_neg hd]
      rw [ih (b.drop (min (sched.headD 0 + 1) b.length))
        (by simp only [List.length_drop]; omega) sched.tail]
      exact List.take_append_drop _ _

/-- The write loop pushes exactly `bindata`, in order, onto the pipe, no
matter how the OS splits the writes. -/
theorem write_loop_eq (sched bindata : List Nat) :
    write_loop sched bindata = bindata :=
  write_loop_eq_aux bindata.length bindata le_rfl sched

theorem recv_loop_ok_aux (m : Nat) :
    ∀ r : Nat, r ≤ m → ∀ sched s size (acc : List Nat), r ≤ s.length →
      recv_loop sched s size r acc = .ok (acc ++ s.take r, s.drop r) := by
  induction m with
  | zero =>
    intro r hr sched s size acc hrs
    have : r = 0 := Nat.le_zero.mp hr
    subst this
    rw [recv_loop]
    simp
  | succ m ih =>
    intro r hr sched s size acc hrs
    rw [recv_loop]
    by_cases h0 : r = 0
    · subst h0; simp
    · rw [if_neg h0]
      set n := min (min (sched.headD 0 + 1) r) s.length with hn
      rw [if_neg (by omega : ¬ n = 0)]
      rw [ih (r - n) (by omega) sched.tail (s.drop n) size (acc ++ s.take n)
        (by simp only [List.length_drop]; omega)]
      rw [List.drop_drop, List.append_assoc, ← List.take_add]
      have hnr : n + (r - n) = r := by omega
      rw [hnr]

theorem recv_in_buffer_ok (sched s : List Nat) (size : Nat)
    (h : size ≤ s.length) :
    _recv_in_buffer sched s size = .ok (s.take size, s.drop size) := by
  have := recv_loop_ok_aux size size le_rfl sched s size [] h
  simpa using this

theorem recv_loop_nil (sched : List Nat) (size r : Nat) (acc : List Nat)
    (hr : r ≠ 0) :
    recv_loop sched [] size r acc =
      if r = size then Except.error RecvErr.eofError
      else Except.error RecvErr.truncatedMessage := by
  rw [recv_loop, if_neg hr]
  simp

theorem recv_loop_truncated_aux (m : Nat) :
    ∀ r : Nat, r ≤ m → 0 < r → ∀ sched (s : List Nat) size acc,
      s.length < r → r < size →
      recv_loop sched s size r acc = .error .truncatedMessage := by
  induction m with
  | zero => intro r hr hrpos; omega
  | succ m ih =>
    intro r hr hrpos sched s size acc hs hsize
    rw [recv_loop, if_neg (by omega : ¬ r = 0)]
    set n := min (min (sched.headD 0 + 1) r) s.length with hn
    by_cases hsnil : s.length = 0
    · rw [if_pos (by omega : n = 0), if_neg (by omega : ¬ r = size)]
    · rw [if_neg (by omega : ¬ n = 0)]
      exact ih (r - n) (by omega) (by omega) sched.tail (s.drop n) size
        (acc ++ s.take n) (by simp only [List.length_drop]; omega) (by omega)

theorem recv_in_buffer_truncated (sched s : List Nat) (size : Nat)
    (hs : s ≠ []) (hlen : s.length < size) :
    _recv_in_buffer sched s size = .error .truncatedMessage := by
  have hs1 : 0 < s.length := List.length_pos.mpr hs
  rw [_recv_in_buffer, recv_loop, if_neg (by omega : ¬ size = 0)]
  set n := min (min (sched.headD 0 + 1) size) s.length with hn
  rw [if_neg (by omega : ¬ n = 0)]
  exact recv_loop_truncated_aux (size - n) (size - n) le_rfl (by omega)
    sched.tail (s.drop n) size ([] ++ s.take n)
    (by simp only [List.length_drop]; omega) (by omega)

theorem recv_in_buffer_eof (sched : List Nat) (size : Nat) (hsize : 0 < size) :
    _recv_in_buffer sched [] size = .error .eofError := by
  rw [_recv_in_buffer, recv_loop_nil sched size size [] (by omega), if_pos rfl]

theorem unpack_packBytes (n : Nat) (h : n < 2 ^ 31) :
    unpack_i (packBytes n) = (n : Int) := by
  have hu : n / 2 ^ 24 % 256 * 2 ^ 24 + n / 2 ^ 16 % 256 * 2 ^ 16 +
      n / 2 ^ 8 % 256 * 2 ^ 8 + n % 256 = n := by omega
  simp only [unpack_i, packBytes, List.getD_cons_zero, List.getD_cons_succ]
  rw [hu, if_pos h]

theorem put_eq (ws1 ws2 payload : List Nat) (h : payload.length < 2 ^ 31) :
    put ws1 ws2 payload = some (packBytes payload.length ++ payload) := by
  have h' : payload.length < 2147483648 := by omega
  simp [put, pack_i, h', write_loop_eq]

theorem put_none (ws1 ws2 payload : List Nat) (h : ¬ payload.length < 2 ^ 31) :
    put ws1 ws2 payload = none := by
  have h' : ¬ payload.length < 2147483648 := by omega
  simp [put, pack_i, h']

theorem roundtrip_of_put_none (ws1 ws2 rs1 rs2 payload : List Nat)
    (h : ¬ payload.length < 2 ^ 31) :
    roundtrip ws1 ws2 rs1 rs2 payload = none := by
  simp only [roundtrip, put_none ws1 ws2 payload h]

theorem put3_first_none (sa1 sa2 sb1 sb2 sc1 sc2 a b c : List Nat)
    (h : ¬ a.length < 2 ^ 31) :
    put3 sa1 sa2 sb1 sb2 sc1 sc2 a b c = none := by
  simp only [put3, put_none sa1 sa2 a h]

theorem get_frame (rs1 rs2 p rest : List Nat) (h : p.length < 2 ^ 31) :
    get rs1 rs2 (packBytes p.length ++ (p ++ rest)) = .ok (p, rest) := by
  have h4 : (packBytes p.length).length = 4 := rfl
  have hrecv1 : _recv_in_buffer rs1 (packBytes p.length ++ (p ++ rest)) 4 =
      .ok (packBytes p.length, p ++ rest) := by
    rw [recv_in_buffer_ok _ _ _ (by rw [List.length_append, h4]; omega)]
    rw [List.take_left' h4, List.drop_left' h4]
  have hrecv2 : _recv_in_buffer rs2 (p ++ rest)
      (unpack_i (packBytes p.length)).toNat = .ok (p, rest) := by
    rw [unpack_packBytes _ h, Int.toNat_natCast]
    rw [recv_in_buffer_ok _ _ _ (by rw [List.length_append]; omega)]
    rw [List.take_left, List.drop_left]
  simp only [get, hrecv1, hrecv2]

theorem validateErr_closed (pid : Nat) (h : HState) (hc : h.closed = true) :
    validateErr pid h = some GErr.handleClosed := by
  simp [validateErr, hc]

theorem close_open (pid : Nat) (h : HState) (hc : h.closed = false)
    (hp : h.legit_pid = pid) (hl : h.lock = false) :
    close pid h = (none, closedVersion h) := by
  cases hfd : h.fd <;> cases hreg : h.registered <;>
    simp [close, validateErr, closedVersion, hc, hp, hl, hfd, hreg]

theorem close_locked_eq (pid : Nat) (h : HState) (hc : h.closed = false)
    (hp : h.legit_pid = pid) (hl : h.lock = true) :
    close pid h = (some GErr.handleLocked, h) := by
  simp [close, validateErr, hc, hp, hl]

theorem close_closed (pid : Nat) (h : HState) (hc : h.closed = true) :
    close pid h = (some GErr.handleClosed, h) := by
  simp [close, validateErr, hc]

theorem close_err_state (pid : Nat) (h : HState) (e : GErr)
    (he : (close pid h).1 = some e) : (close pid h).2 = h := by
  unfold close at he ⊢
  cases hv : validateErr pid h with
  | some e0 => simp [hv]
  | none =>
    rw [hv] at he
    by_cases hl : h.lock
    · simp [hl]
    · simp [hl] at he

theorem entry_raised (pid : Nat) (h : HState) (e : GErr)
    (he : validateErr pid h = some e) :
    get_entry pid h = .raised e ∧ put_entry pid h = .raised e := by
  simp [get_entry, put_entry, he]

theorem closedVersion_entries (pid : Nat) (h : HState) :
    get_entry pid (closedVersion h) = .raised .handleClosed ∧
    put_entry pid (closedVersion h) = .raised .handleClosed ∧
    (close pid (closedVersion h)).1 = some GErr.handleClosed := by
  refine ⟨?_, ?_, ?_⟩ <;>
    simp [get_entry, put_entry, close, validateErr, closedVersion]

theorem start_process_parent_spec (pid : Nat) :
    ∀ (S : List Nat) (f : Nat → HState), S.Nodup →
      (∀ i ∈ S, (f i).closed = false ∧ (f i).legit_pid = pid ∧
        (f i).lock = false) →
      (start_process_parent pid S f).1 = none ∧
      (∀ i ∈ S, (start_process_parent pid S f).2 i = closedVersion (f i)) ∧
      (∀ j, j ∉ S → (start_process_parent pid S f).2 j = f j) := by
  intro S
  induction S with
  | nil => intro f _ _; simp [start_process_parent]
  | cons i rest ih =>
    intro f hnd hok
    have hi := hok i (List.mem_cons_self i rest)
    have hcl : close pid (f i) = (none, closedVersion (f i)) :=
      close_open pid (f i) hi.1 hi.2.1 hi.2.2
    have hnotmem : i ∉ rest := (List.nodup_cons.mp hnd).1
    have hndrest : rest.Nodup := (List.nodup_cons.mp hnd).2
    set f1 : Nat → HState :=
      fun j => if j = i then closedVersion (f i) else f j with hf1
    have hstep : start_process_parent pid (i :: rest) f =
        start_process_parent pid rest f1 := by
      simp [start_process_parent, hcl, hf1]
    have hok1 : ∀ i' ∈ rest, (f1 i').closed = false ∧
        (f1 i').legit_pid = pid ∧ (f1 i').lock = false := by
      intro i' hi'
      have : i' ≠ i := fun hcontra => hnotmem (hcontra ▸ hi')
      simpa [hf1, this] using hok i' (List.mem_cons_of_mem i hi')
    obtain ⟨h1, h2, h3⟩ := ih f1 hndrest hok1
    refine ⟨by rw [hstep]; exact h1, ?_, ?_⟩
    · intro i' hi'
      rcases List.mem_cons.mp hi' with heq | hmem
      · subst heq
        rw [hstep, h3 i' hnotmem, hf1]
        simp
      · have : i' ≠ i := fun hcontra => hnotmem (hcontra ▸ hmem)
        rw [hstep, h2 i' hmem, hf1]
        simp [this]
    · intro j hj
      have hji : j ≠ i := fun hcontra => hj (hcontra ▸ List.mem_cons_self i rest)
      have hjrest : j ∉ rest := fun hcontra => hj (List.mem_cons_of_mem i hcontra)
      rw [hstep, h3 j hjrest, hf1]
      simp [hji]

/-- C1 (counterexample): the round trip does NOT hold for payloads of every
size.  At the concrete payload `List.replicate (2 ^ 31) 0` the writer's
`struct.pack("!i", len(bindata))` raises `struct.error` (the `i` format is a
signed 32-bit integer), so `put` never produces a frame and no `get` can
return the payload. -/
theorem C1_counterexample :
    roundtrip [] [] [] [] (List.replicate (2 ^ 31) 0) ≠
      some (List.replicate (2 ^ 31) 0) := by
  have h1 : roundtrip [] [] [] [] (List.replicate (2 ^ 31) 0) = none := by
    apply roundtrip_of_put_none
    rw [List.length_replicate]
    omega
  rw [h1]
  exact fun hcontra => Option.noConfusion hcontra

/-- C1 (amended): for every payload whose serialized length is at most
`2 ^ 31 - 1` (including the empty payload), `put` on the writer followed by
`get` on the paired reader returns the payload bytes identically, for every
schedule of partial writes and partial reads. -/
theorem C1_roundtrip_identity (ws1 ws2 rs1 rs2 payload : List Nat)
    (hp : payload.length < 2 ^ 31) :
    roundtrip ws1 ws2 rs1 rs2 payload = some payload := by
  have hput := put_eq ws1 ws2 payload hp
  have hget : get rs1 rs2 (packBytes payload.length ++ payload) =
      .ok (payload, []) := by
    have := get_frame rs1 rs2 payload [] hp
    simpa using this
  simp only [roundtrip, hput, hget]

/-- C1 (witness): the round trip evaluated at the concrete payload
`[7, 42]` (and, via the theorem, at the empty payload too). -/
theorem C1_roundtrip_identity_witness :
    roundtrip [] [] [] [] [7, 42] = some [7, 42] :=
  C1_roundtrip_identity [] [] [] [] [7, 42] (by decide)

/-- C2 (counterexample): the ordering claim does NOT hold regardless of
payload sizes: with first payload `List.replicate (2 ^ 31) 0`, already
`put(a)` raises `struct.error`, so the sequence `put(a); put(b); put(c)`
produces no byte stream at all. -/
theorem C2_counterexample :
    ¬ ∃ wire, put3 [] [] [] [] [] [] (List.replicate (2 ^ 31) 0) [] [] =
      some wire := by
  have h1 : put3 [] [] [] [] [] [] (List.replicate (2 ^ 31) 0) [] [] = none := by
    apply put3_first_none
    rw [List.length_replicate]
    omega
  intro hcontra
  obtain ⟨wire, hw⟩ := hcontra
  rw [h1] at hw
  exact Option.noConfusion hw

/-- C2 (amended): for payloads `a`, `b`, `c` each of serialized length at
most `2 ^ 31 - 1`, `put(a); put(b); put(c)` on one writer yields
`get() -> a; get() -> b; get() -> c` in that order on the paired reader,
for every schedule of partial writes and partial reads (message boundaries
and order are preserved). -/
theorem C2_ordering (sa1 sa2 sb1 sb2 sc1 sc2 r1 r2 r3 r4 r5 r6
    a b c wire : List Nat)
    (ha : a.length < 2 ^ 31) (hb : b.length < 2 ^ 31) (hc : c.length < 2 ^ 31)
    (hw : put3 sa1 sa2 sb1 sb2 sc1 sc2 a b c = some wire) :
    get3 r1 r2 r3 r4 r5 r6 wire = .ok (a, b, c, []) := by
  simp only [put3, put_eq _ _ _ ha, put_eq _ _ _ hb, put_eq _ _ _ hc,
    Option.some.injEq] at hw
  subst hw
  have g1 := get_frame r1 r2 a
    (packBytes b.length ++ (b ++ (packBytes c.length ++ c))) ha
  have g2 := get_frame r3 r4 b (packBytes c.length ++ c) hb
  have g3 : get r5 r6 (packBytes c.length ++ c) = .ok (c, []) := by
    have := get_frame r5 r6 c [] hc
    rwa [List.append_nil] at this
  simp only [get3, List.append_assoc, g1, g2, g3]

/-- C2 (witness): `put([5]); put([]); put([6,7])` pushes the concrete byte
sequence `[0,0,0,1,5, 0,0,0,0, 0,0,0,2,6,7]` and three `get` calls return
`[5]`, `[]`, `[6,7]` in order. -/
theorem C2_ordering_witness :
    get3 [] [] [] [] [] [] [0, 0, 0, 1, 5, 0, 0, 0, 0, 0, 0, 0, 2, 6, 7] =
      .ok ([5], [], [6, 7], []) :=
  C2_ordering [] [] [] [] [] [] [] [] [] [] [] [] [5] [] [6, 7]
    [0, 0, 0, 1, 5, 0, 0, 0, 0, 0, 0, 0, 2, 6, 7]
    (by decide) (by decide) (by decide)
    (by norm_num [put3, put, pack_i, packBytes, write_loop_eq])

/-- C3 (counterexample): the length prefix is NOT an unsigned 32-bit
integer.  `struct.pack("!i", 2 ^ 31)` raises `struct.error` (so not every
length up to `2 ^ 32 - 1` is representable), and the reader interprets the
four bytes `0xFF 0xFF 0xFF 0xFF` as the negative value `-1`. -/
theorem C3_counterexample :
    pack_i (2 ^ 31) = none ∧ unpack_i [255, 255, 255, 255] < 0 := by
  constructor
  · simp [pack_i]
  · norm_num [unpack_i]

/-- C3 (amended): the frame written by `put` is a 4-byte length prefix in
network byte order followed by exactly the payload bytes, but the length is
packed and unpacked with the SIGNED 32-bit format `"!i"`: only lengths up
to `2 ^ 31 - 1` are representable, and within that range the prefix decodes
back to the (nonnegative) payload length. -/
theorem C3_frame_layout (ws1 ws2 payload : List Nat)
    (hp : payload.length < 2 ^ 31) :
    put ws1 ws2 payload = some (packBytes payload.length ++ payload) ∧
    (packBytes payload.length).length = 4 ∧
    unpack_i (packBytes payload.length) = (payload.length : Int) ∧
    0 ≤ unpack_i (packBytes payload.length) := by
  refine ⟨put_eq ws1 ws2 payload hp, rfl, unpack_packBytes _ hp, ?_⟩
  rw [unpack_packBytes _ hp]
  exact Int.natCast_nonneg _

/-- C3 (witness): the frame layout evaluated at the payload `[9, 9, 9]`. -/
theorem C3_frame_layout_witness :
    put [] [] [9, 9, 9] = some (packBytes 3 ++ [9, 9, 9]) ∧
    (packBytes 3).length = 4 ∧
    unpack_i (packBytes 3) = (3 : Int) ∧
    0 ≤ unpack_i (packBytes 3) :=
  C3_frame_layout [] [] [9, 9, 9] (by decide)

/-- C4: in `_recv_in_buffer` with requested count `n > 0`: a zero-byte read
with nothing collected for this call (the stream was exhausted from the
start) raises `EOFError`; a zero-byte read after some but fewer than `n`
bytes (nonempty stream shorter than `n`) raises the truncation error
(`IOError("Message interrupted by EOF.")`); otherwise exactly `n` bytes are
returned — for every read schedule. -/
theorem C4_readExact_trichotomy (sched s : List Nat) (n : Nat) (hn : 0 < n) :
    (s = [] → _recv_in_buffer sched s n = .error .eofError) ∧
    (s ≠ [] → s.length < n →
      _recv_in_buffer sched s n = .error .truncatedMessage) ∧
    (n ≤ s.length →
      _recv_in_buffer sched s n = .ok (s.take n, s.drop n) ∧
      (s.take n).length = n) := by
  refine ⟨?_, ?_, ?_⟩
  · intro hnil
    subst hnil
    exact recv_in_buffer_eof sched n hn
  · intro hne hlen
    exact recv_in_buffer_truncated sched s n hne hlen
  · intro hle
    exact ⟨recv_in_buffer_ok sched s n hle, List.length_take_of_le hle⟩

/-- C4 (witness): the three branches evaluated on concrete streams with
`n = 4` and `n = 2`. -/
theorem C4_readExact_trichotomy_witness :
    _recv_in_buffer [] [] 4 = .error .eofError ∧
    _recv_in_buffer [] [9] 4 = .error .truncatedMessage ∧
    _recv_in_buffer [] [1, 2, 3] 2 = .ok ([1, 2, 3].take 2, [1, 2, 3].drop 2) :=
  ⟨(C4_readExact_trichotomy [] [] 4 (by decide)).1 rfl,
   (C4_readExact_trichotomy [] [9] 4 (by decide)).2.1 (by decide) (by decide),
   ((C4_readExact_trichotomy [] [1, 2, 3] 2 (by decide)).2.2 (by decide)).1⟩

/-- C5: `close()` on an endpoint whose `ioLock` is held by an in-flight
`get`/`put` (hence open and owned by the current process) fails immediately
with the locked-handle error and leaves the whole endpoint state unchanged:
still open, file descriptor intact, still registered, lock still held. -/
theorem C5_close_locked_error (pid : Nat) (h : HState)
    (hc : h.closed = false) (hp : h.legit_pid = pid) (hl : h.lock = true) :
    close pid h = (some GErr.handleLocked, h) ∧
    (close pid h).2.closed = false ∧
    (close pid h).2.fd = h.fd ∧
    (close pid h).2.registered = h.registered ∧
    (close pid h).2.lock = true := by
  have he := close_locked_eq pid h hc hp hl
  rw [he]
  exact ⟨rfl, hc, rfl, rfl, hl⟩

/-- C5 (witness): `close` evaluated on a concrete open, owned, locked
handle. -/
theorem C5_close_locked_error_witness :
    close 7 ⟨some 3, 7, true, false, true⟩ =
      (some GErr.handleLocked, ⟨some 3, 7, true, false, true⟩) :=
  (C5_close_locked_error 7 ⟨some 3, 7, true, false, true⟩ rfl rfl rfl).1

/-- C6: the `closed` flag transitions false→true only through a successful
`close()` (a failing `close` leaves the state unchanged, and `get`/`put`
never assign `self._closed`); a successful `close` on an open handle leaves
`closed = true`, `fd = None` and the handle deregistered; and once `closed`
is true every subsequent `get`/`put`/`close` raises the closed-handle
error, the state again unchanged. -/
theorem C6_closed_lifecycle (pid : Nat) (h : HState) :
    (h.closed = false → h.legit_pid = pid → h.lock = false →
      close pid h = (none, closedVersion h) ∧
      (closedVersion h).closed = true ∧
      (closedVersion h).fd = none ∧
      (closedVersion h).registered = false) ∧
    (∀ e, (close pid h).1 = some e → (close pid h).2 = h) ∧
    (h.closed = true →
      close pid h = (some GErr.handleClosed, h) ∧
      get_entry pid h = .raised .handleClosed ∧
      put_entry pid h = .raised .handleClosed) := by
  refine ⟨?_, ?_, ?_⟩
  · intro hc hp hl
    exact ⟨close_open pid h hc hp hl, rfl, rfl, rfl⟩
  · intro e he
    exact close_err_state pid h e he
  · intro hc
    exact ⟨close_closed pid h hc,
      entry_raised pid h GErr.handleClosed (validateErr_closed pid h hc)⟩

/-- C6 (witness): the lifecycle evaluated on a concrete open handle and a
concrete closed handle. -/
theorem C6_closed_lifecycle_witness :
    close 7 ⟨some 3, 7, false, false, true⟩ =
      (none, closedVersion ⟨some 3, 7, false, false, true⟩) ∧
    (close 7 ⟨none, 7, false, true, false⟩).2 = ⟨none, 7, false, true, false⟩ ∧
    get_entry 7 ⟨none, 7, false, true, false⟩ = .raised .handleClosed :=
  ⟨((C6_closed_lifecycle 7 ⟨some 3, 7, false, false, true⟩).1 rfl rfl rfl).1,
   (C6_closed_lifecycle 7 ⟨none, 7, false, true, false⟩).2.1
     GErr.handleClosed (by decide),
   ((C6_closed_lifecycle 7 ⟨none, 7, false, true, false⟩).2.2 rfl).2.1⟩

/-- C7: after the parent side of `start_process` with designated subset `S`
of distinct open, owned, unlocked endpoints, every endpoint in `S` has been
closed in the parent (so any later parent-side `get`/`put`/`close` on it
raises the closed-handle error), while every endpoint not in `S` is left
unchanged. -/
theorem C7_spawn_parent_closes (pid : Nat) (S : List Nat) (f : Nat → HState)
    (hnd : S.Nodup)
    (hok : ∀ i ∈ S, (f i).closed = false ∧ (f i).legit_pid = pid ∧
      (f i).lock = false) :
    (start_process_parent pid S f).1 = none ∧
    (∀ i ∈ S, (start_process_parent pid S f).2 i = closedVersion (f i) ∧
      get_entry pid ((start_process_parent pid S f).2 i) =
        .raised .handleClosed ∧
      put_entry pid ((start_process_parent pid S f).2 i) =
        .raised .handleClosed ∧
      (close pid ((start_process_parent pid S f).2 i)).1 =
        some GErr.handleClosed) ∧
    (∀ j, j ∉ S → (start_process_parent pid S f).2 j = f j) := by
  obtain ⟨h1, h2, h3⟩ := start_process_parent_spec pid S f hnd hok
  refine ⟨h1, ?_, h3⟩
  intro i hi
  rw [h2 i hi]
  exact ⟨rfl, closedVersion_entries pid (f i)⟩

/-- C7 (witness): parent-side spawn handoff evaluated with the designated
subset `[0, 1]` out of handles `0, 1, 5`: handle `0` ends closed, handle
`5` is untouched. -/
theorem C7_spawn_parent_closes_witness :
    (start_process_parent 7 [0, 1]
      (fun _ => ⟨some 3, 7, false, false, true⟩)).2 0 =
      closedVersion ⟨some 3, 7, false, false, true⟩ ∧
    (start_process_parent 7 [0, 1]
      (fun _ => ⟨some 3, 7, false, false, true⟩)).2 5 =
      ⟨some 3, 7, false, false, true⟩ :=
  ⟨((C7_spawn_parent_closes 7 [0, 1] (fun _ => ⟨some 3, 7, false, false, true⟩)
      (by decide) (by decide)).2.1 0 (by decide)).1,
   (C7_spawn_parent_closes 7 [0, 1] (fun _ => ⟨some 3, 7, false, false, true⟩)
      (by decide) (by decide)).2.2 5 (by decide)⟩

/-- C8 (counterexample): the entry order of `get`/`put` is NOT
lock-then-validate.  On a closed handle whose lock is held, the source's
`get` raises the closed-handle error immediately (it validates BEFORE
touching the lock), while the spec's order would block on the lock; the
same for a wrong-process call. -/
theorem C8_counterexample :
    get_entry 1 ⟨some 5, 1, true, true, true⟩ = .raised .handleClosed ∧
    get_entry_specOrder 1 ⟨some 5, 1, true, true, true⟩ = .blockedOnLock ∧
    get_entry 1 ⟨some 5, 2, true, false, true⟩ = .raised .wrongProcess ∧
    get_entry_specOrder 1 ⟨some 5, 2, true, false, true⟩ = .blockedOnLock ∧
    get_entry 1 ⟨some 5, 1, true, true, true⟩ ≠
      get_entry_specOrder 1 ⟨some 5, 1, true, true, true⟩ := by
  decide

/-- C8 (amended): in `get` (and symmetrically in `put`) the
ownership/closed validation is performed FIRST and the `ioLock` is acquired
afterwards: a call from a wrong process or on a closed handle raises
immediately, before and regardless of any lock acquisition, even while the
lock is held by an in-flight operation. -/
theorem C8_validate_before_lock (pid : Nat) (h : HState) (e : GErr)
    (he : validateErr pid h = some e) :
    get_entry pid h = .raised e ∧ put_entry pid h = .raised e :=
  entry_raised pid h e he

/-- C8 (witness): the entry sequence evaluated on a concrete closed handle
whose lock is held. -/
theorem C8_validate_before_lock_witness :
    get_entry 1 ⟨some 5, 1, true, true, false⟩ = .raised .handleClosed ∧
    put_entry 1 ⟨some 5, 1, true, true, false⟩ = .raised .handleClosed :=
  C8_validate_before_lock 1 ⟨some 5, 1, true, true, false⟩
    GErr.handleClosed (by decide)

/-- C9: a request to read exactly 0 bytes returns an empty buffer without
consuming the stream and never raises, even when the peer has already
closed its end (the `while remaining > 0` loop body is never entered). -/
theorem C9_zero_size_read (sched s : List Nat) :
    _recv_in_buffer sched s 0 = .ok ([], s) := by
  rw [_recv_in_buffer, recv_loop]
  simp

/-- C10: on an endpoint that is both closed and owned by a different
process, every operation that validates the handle (`get`, `put`, `close`)
raises the closed-handle error, not the cross-process error: the
`self._closed` check precedes the pid check in `_validate_process`. -/
theorem C10_closed_check_precedence (pid : Nat) (h : HState)
    (hc : h.closed = true) (_hp : pid ≠ h.legit_pid) :
    validateErr pid h = some GErr.handleClosed ∧
    validateErr pid h ≠ some GErr.wrongProcess ∧
    get_entry pid h = .raised .handleClosed ∧
    put_entry pid h = .raised .handleClosed ∧
    (close pid h).1 = some GErr.handleClosed := by
  have hv := validateErr_closed pid h hc
  obtain ⟨hg, hpu⟩ := entry_raised pid h GErr.handleClosed hv
  refine ⟨hv, ?_, hg, hpu, ?_⟩
  · rw [hv]
    simp
  · rw [close_closed pid h hc]

/-- C10 (witness): evaluated on a concrete handle that is closed and owned
by process 2, operated on from process 1. -/
theorem C10_closed_check_precedence_witness :
    validateErr 1 ⟨some 4, 2, false, true, true⟩ =
      some GErr.handleClosed ∧
    get_entry 1 ⟨some 4, 2, false, true, true⟩ = .raised .handleClosed :=
  ⟨(C10_closed_check_precedence 1 ⟨some 4, 2, false, true, true⟩
      rfl (by decide)).1,
   (C10_closed_check_precedence 1 ⟨some 4, 2, false, true, true⟩
      rfl (by decide)).2.2.1⟩

end GPipe
